import Mathlib

/-!
Verification of `src/backend/scene_generator.py` (class `SceneGenerator`):
a shallow embedding of the code-generation retry loop (`generate_manim`),
the speech-synthesis step (`generate_speech`), the audio/video duration
reconciler (`combine_manim_and_speech`), the final assembler
(`combine_video_scenes`) and the orchestration (`generate_all_scenes`),
with the external collaborators (language-model service, rendering engine,
speech service, media library, filesystem) represented as parameters or as
explicit event traces.
-/

namespace SceneGen

/-- Character sequences: Python `str` values are modelled as lists of
characters so that Python's character-set based `str.strip` can be stated
exactly. -/
abbrev Chars := List Char

/-- The backtick character, U+0060. -/
def backtick : Char := Char.ofNat 96

/-- Membership test in the character set of Python's `output.strip("```")`:
Python dedupes the argument to the character set containing only the
backtick character. -/
def isTick (c : Char) : Bool := c == backtick

/-- Model of `output.strip("```")` (scene_generator.py line 134): Python
`str.strip(chars)` removes from both ends every leading and every trailing
character that belongs to the character set of `chars`, here the set holding
only the backtick.  It does not remove the substring three-backticks as a
unit, and it never touches characters past the first non-backtick at either
end. -/
def stripCodeFence (s : Chars) : Chars :=
  ((s.dropWhile isTick).reverse.dropWhile isTick).reverse

/-- The constant `MAX_ITERATIONS` (scene_generator.py line 25). -/
def MAX_ITERATIONS : Nat := 5

/-- The constant `SYSTEM_SCENE_PROMPT` (scene_generator.py lines 27-35). -/
def SYSTEM_SCENE_PROMPT : String :=
  "\nYou are an expert teacher of simple and complex topics, similar to 3 Blue 1 Brown. Given a transcription for a video scene, you are to generate Manim code that will create an animation for the scene. The code should be able to run without errors.\n\nTry to be creative in your visualization of the topic. The scene should be engaging and informative. ONLY generate and return the manim code. Nothing else. Not even markdown or the programming language name\n\nTwo elements should not be in the same location at the same time. Ensure that every asset you use is defined in the file, and that the file can be run without errors.\n\nThe classname of the root animation should always be VideoScene.\n"

/-- One role-tagged message of the conversation history sent to the
language-model service. -/
structure Message where
  role : String
  content : Chars
deriving DecidableEq

/-- The conversation history `generate_manim` starts from (lines 117-121):
the fixed system prompt followed by the scene transcription as a user
message. -/
def initMessages (transcription : Chars) : List Message :=
  [⟨"system", SYSTEM_SCENE_PROMPT.data⟩, ⟨"user", transcription⟩]

/-- Prefix of the user message fed back on a failed render:
`f"Error: \x7brender_output[1]\x7d"` (line 162). -/
def errorTag : Chars := "Error: ".data

/-- Observable state of one `generate_manim` run: the conversation history
`messages`, the number of language-model requests issued so far, and the
successive contents written to the scene's `video.py` file. -/
structure GenState where
  messages : List Message
  requests : Nat
  fileWrites : List Chars
deriving DecidableEq

/-- State change of one language-model request (lines 124-139): one request
is issued and the response text, stripped with `stripCodeFence`, is appended
to the conversation history as an assistant message. -/
def afterLLM (st : GenState) (output : Chars) : GenState :=
  { st with requests := st.requests + 1,
            messages := st.messages ++ [⟨"assistant", output⟩] }

/-- State change of persisting the code to the scene's `video.py`
(lines 142-146). -/
def afterWrite (st : GenState) (output : Chars) : GenState :=
  { st with fileWrites := st.fileWrites ++ [output] }

/-- State change of a failed render (line 162): the diagnostic text,
prefixed with `Error: `, is appended as a user message. -/
def afterFail (st : GenState) (err : Chars) : GenState :=
  { st with messages := st.messages ++ [⟨"user", errorTag ++ err⟩] }

/-- The `while iteration < MAX_ITERATIONS` loop of `generate_manim`
(lines 123-166), written structurally on `remaining = MAX_ITERATIONS -
iteration`; `attempt` is the current 0-based attempt index (equal to the
current value of `iteration`, since `iteration` increments exactly once per
failed pass).  The external collaborators are parameters: `llm i` is the
language-model response text of attempt `i`, `writeOk i` tells whether the
local file write of attempt `i` succeeds (on failure the function returns
`none` at once, line 149), and `render i` is the rendering adapter's
`(success, diagnostic)` result for attempt `i`.  Returns the scene id on a
successful render, `none` on a write failure or after the loop exhausts
`MAX_ITERATIONS` failed attempts (line 166). -/
def generate_manim_aux (sceneId : Nat) (llm : Nat → Chars) (writeOk : Nat → Bool)
    (render : Nat → Bool × Chars) : Nat → Nat → GenState → Option Nat × GenState
  | 0, _, st => (none, st)
  | remaining + 1, attempt, st =>
    if writeOk attempt then
      if (render attempt).1 then
        (some sceneId, afterWrite (afterLLM st (stripCodeFence (llm attempt)))
          (stripCodeFence (llm attempt)))
      else
        generate_manim_aux sceneId llm writeOk render remaining (attempt + 1)
          (afterFail
            (afterWrite (afterLLM st (stripCodeFence (llm attempt)))
              (stripCodeFence (llm attempt)))
            (render attempt).2)
    else (none, afterLLM st (stripCodeFence (llm attempt)))

/-- Function `generate_manim` (lines 109-166): runs the retry loop from iteration 0
with the seeded conversation history, no requests issued and no file
written. -/
def generate_manim (sceneId : Nat) (llm : Nat → Chars) (writeOk : Nat → Bool)
    (render : Nat → Bool × Chars) (transcription : Chars) : Option Nat × GenState :=
  generate_manim_aux sceneId llm writeOk render MAX_ITERATIONS 0
    ⟨initMessages transcription, 0, []⟩

/-- Result of an awaited task: either a value or a propagated Python
exception carrying a message. -/
inductive Outcome (α : Type) where
  | ok (val : α)
  | raised (msg : String)
deriving DecidableEq

/-- Whether an awaited task completed without raising. -/
def Outcome.isOk {α : Type} : Outcome α → Bool
  | .ok _ => true
  | .raised _ => false

/-- Filesystem effects of `generate_speech` (lines 89-105). -/
inductive SpeechEvent where
  | makeDirs
  | writeAudio
deriving DecidableEq

/-- Result of one `generate_speech` run: the returned value (or the
propagated exception) and the filesystem effects performed. -/
structure SpeechResult where
  result : Outcome Nat
  events : List SpeechEvent
deriving DecidableEq

/-- Function `generate_speech` (lines 89-105): first awaits
`speech_client.synthesize` (line 96, modelled by the parameter `synth`);
only after synthesis returns does it create the scene directory when absent
(lines 99-100) and write the audio bytes (lines 101-102).  There is no
exception handler, so a synthesis failure propagates before any filesystem
effect. -/
def generate_speech (sceneId : Nat) (synth : Outcome Chars) (dirExists : Bool) :
    SpeechResult :=
  match synth with
  | .raised m => ⟨.raised m, []⟩
  | .ok _ =>
      ⟨.ok sceneId, (if dirExists then [] else [SpeechEvent.makeDirs]) ++
        [SpeechEvent.writeAudio]⟩

/-- Observable events of `combine_manim_and_speech` (lines 168-221):
sampling the held frame, deleting the old scene file, writing the muxed
file, and closing each clip. -/
inductive CombineEvent where
  | sampleFrame (t : ℚ)
  | removeFile
  | writeFile (duration : ℚ)
  | closeVideo
  | closeAudio
  | closeFinal
deriving DecidableEq

/-- Result of one `combine_manim_and_speech` run: whether the run raised,
the adjusted track durations after the two extension branches, the computed
`final_duration`, the durations of the muxed clip's two tracks after the
`subclip(0, final_duration)` trims, and the event trace. -/
structure CombineResult where
  raised : Bool
  adjVideoDuration : ℚ
  adjAudioDuration : ℚ
  finalDuration : ℚ
  muxedVideoDuration : ℚ
  muxedAudioDuration : ℚ
  events : List CombineEvent
deriving DecidableEq

/-- Function `combine_manim_and_speech` (lines 168-221), with durations as exact
rationals and the media library modelled by its duration algebra.  If
`audio_duration < video_duration` (line 188) the audio becomes
`CompositeAudioClip([audio, silence.set_start(audio_duration)])` whose
duration is the largest clip end, `max audioDuration (audioDuration +
(videoDuration - audioDuration))`.  If `audio_duration > video_duration`
(line 194) the last frame is sampled at `video_duration - 0.1` (line 196)
and the extended video's duration is set to `audio_duration` (line 199).
Then `final_duration = min` of the two (line 202) and both tracks are
trimmed to it (lines 203-204).  `os.remove` (line 211) always runs; the
parameter `writeOk` tells whether `final_clip.write_videofile` (line 213)
succeeds — when it raises, the three `close()` calls (lines 217-219) never
execute because they follow the write with no `try/finally`. -/
def combine_manim_and_speech (videoDuration audioDuration : ℚ) (writeOk : Bool) :
    CombineResult :=
  let audio1 : ℚ :=
    if audioDuration < videoDuration then
      max audioDuration (audioDuration + (videoDuration - audioDuration))
    else audioDuration
  let video1 : ℚ :=
    if audioDuration < videoDuration then videoDuration
    else if videoDuration < audioDuration then audioDuration
    else videoDuration
  let sampleEvents : List CombineEvent :=
    if audioDuration < videoDuration then []
    else if videoDuration < audioDuration then
      [CombineEvent.sampleFrame (videoDuration - 1/10)]
    else []
  let finalDuration := min video1 audio1
  { raised := !writeOk
    adjVideoDuration := video1
    adjAudioDuration := audio1
    finalDuration := finalDuration
    muxedVideoDuration := finalDuration
    muxedAudioDuration := finalDuration
    events := sampleEvents ++ [CombineEvent.removeFile] ++
      (if writeOk then
        [CombineEvent.writeFile finalDuration, CombineEvent.closeVideo,
         CombineEvent.closeAudio, CombineEvent.closeFinal]
      else []) }

/-- A sample time `t` is within the valid range of a clip of duration `d`:
frames exist for times from 0 through the clip's duration. -/
def frameInRange (t d : ℚ) : Prop := 0 ≤ t ∧ t ≤ d

instance (t d : ℚ) : Decidable (frameInRange t d) := by
  unfold frameInRange; infer_instance

/-- The constant `GENERATIONS_PATH` (line 23). -/
def GENERATIONS_PATH : String := "generated"

/-- The final video path `f"\x7bGENERATIONS_PATH\x7d/\x7bself.video_id\x7d/final_video.mp4"`
(line 243). -/
def finalVideoPath (videoId : String) : String :=
  GENERATIONS_PATH ++ "/" ++ videoId ++ "/final_video.mp4"

/-- The `for scene_id in self.scene_transcriptions.keys()` loop of
`combine_video_scenes` (lines 230-236): walks the scene ids in insertion
order, appending each scene whose muxed file exists to the clip list and
each missing scene to the error log. -/
def collectClipsAux (fileExists : Nat → Bool) (clips missing : List Nat) :
    List Nat → List Nat × List Nat
  | [] => (clips, missing)
  | s :: rest =>
    if fileExists s then collectClipsAux fileExists (clips ++ [s]) missing rest
    else collectClipsAux fileExists clips (missing ++ [s]) rest

/-- Result of `combine_video_scenes`: the returned final path (or `none`),
the scene ids concatenated in order, the scene ids logged as missing, and
whether the final video file was written. -/
structure AssembleResult where
  finalPath : Option String
  clips : List Nat
  missing : List Nat
  wroteFinal : Bool
deriving DecidableEq

/-- Function `combine_video_scenes` (lines 223-247): `order` is the key order of
`self.scene_transcriptions` — Python dicts iterate in insertion order, so
this is the order the transcriptions were supplied to the constructor
(line 49) — and `fileExists` is the filesystem's answer for each scene's
muxed clip path.  If no clip was loaded it returns `None` and writes
nothing (lines 238-240); otherwise it concatenates the loaded clips in
order, writes the final file and returns its path (lines 242-247). -/
def combine_video_scenes (videoId : String) (order : List Nat)
    (fileExists : Nat → Bool) : AssembleResult :=
  let collected := collectClipsAux fileExists [] [] order
  if collected.1.isEmpty then ⟨none, collected.1, collected.2, false⟩
  else ⟨some (finalVideoPath videoId), collected.1, collected.2, true⟩

/-- Per-scene inputs to `generate_all_scenes`: the scene id together with
the outcomes of the two tasks launched for it (lines 256-257) — the
`generate_manim` task, whose value is `some sceneId` or `None` when it
completes (it returns `None` on exhaustion or write failure), and the
`generate_speech` task, which returns the scene id or raises. -/
structure SceneTasks where
  sceneId : Nat
  manim : Outcome (Option Nat)
  speech : Outcome Nat
deriving DecidableEq

/-- Model of `asyncio.gather` over one scene's task pair (line 261, inner gather):
without `return_exceptions=True`, if either task raised, the await raises
that exception; otherwise it yields the pair of results in task order. -/
def gatherPair {α β : Type} (x : Outcome α) (y : Outcome β) : Outcome (α × β) :=
  match x, y with
  | .raised m, _ => .raised m
  | .ok _, .raised m => .raised m
  | .ok a, .ok b => .ok (a, b)

/-- Model of `asyncio.gather` over the per-scene gathers (line 261, outer gather):
raises the first raised element's exception, else yields the results in
argument order (which is the scene insertion order, independent of
completion order). -/
def gatherList {α : Type} : List (Outcome α) → Outcome (List α)
  | [] => .ok []
  | .raised m :: _ => .raised m
  | .ok a :: rest =>
    match gatherList rest with
    | .raised m => .raised m
    | .ok as => .ok (a :: as)

/-- The sequential reconciliation loop of `generate_all_scenes`
(lines 265-269): for each `(manim_result, speech_result)` zipped with the
scene ids in insertion order, a `None` manim result skips the scene with a
logged error (lines 266-268); otherwise `combine_manim_and_speech` runs,
and `combineFails sceneId = some msg` models it raising (it has no
exception handler, so the exception propagates). -/
def processScenes (combineFails : Nat → Option String) :
    List ((Option Nat × Nat) × Nat) → Outcome Unit
  | [] => .ok ()
  | ((manimResult, _), sceneId) :: rest =>
    match manimResult with
    | none => processScenes combineFails rest
    | some _ =>
      match combineFails sceneId with
      | some m => .raised m
      | none => processScenes combineFails rest

/-- Function `generate_all_scenes` (lines 249-272): awaits the nested gather of all
scenes' task pairs (line 261) — an exception from any task propagates here
and aborts the whole coroutine — then runs the reconciliation loop, then
assembly, and returns `self.video_id` (line 272). -/
def generate_all_scenes (videoId : Nat) (scenes : List SceneTasks)
    (combineFails : Nat → Option String) : Outcome Nat :=
  match gatherList (scenes.map fun s => gatherPair s.manim s.speech) with
  | .raised m => .raised m
  | .ok results =>
    match processScenes combineFails (results.zip (scenes.map (·.sceneId))) with
    | .raised m => .raised m
    | .ok _ => .ok videoId

/-! Helper lemmas shared by the claim theorems. -/

/-- The request counter of the retry loop grows by at most the number of
remaining iterations. -/
theorem generate_manim_aux_requests_le (sceneId : Nat) (llm : Nat → Chars)
    (writeOk : Nat → Bool) (render : Nat → Bool × Chars) (remaining : Nat) :
    ∀ (attempt : Nat) (st : GenState),
      ((generate_manim_aux sceneId llm writeOk render remaining attempt st).2).requests
        ≤ st.requests + remaining := by
  induction remaining with
  | zero => intro attempt st; simp [generate_manim_aux]
  | succ n ih =>
    intro attempt st
    rw [generate_manim_aux]
    by_cases hw : writeOk attempt
    · by_cases hr : (render attempt).1
      · simp [hw, hr, afterWrite, afterLLM]
      · simp only [hw, hr, if_true, if_false, Bool.false_eq_true]
        refine le_trans (ih _ _) ?_
        simp [afterFail, afterWrite, afterLLM]
        omega
    · simp [hw, afterLLM]

/-- If every file write succeeds, the first `m` renders starting at
`attempt` fail and render `attempt + m` succeeds within the remaining
iterations, the loop returns the scene id having issued exactly `m + 1`
further requests. -/
theorem generate_manim_aux_success (sceneId : Nat) (llm : Nat → Chars)
    (writeOk : Nat → Bool) (render : Nat → Bool × Chars)
    (hw : ∀ i, writeOk i = true) (m : Nat) :
    ∀ (remaining attempt : Nat) (st : GenState), m < remaining →
      (∀ j, j < m → (render (attempt + j)).1 = false) →
      (render (attempt + m)).1 = true →
      (generate_manim_aux sceneId llm writeOk render remaining attempt st).1 = some sceneId ∧
      ((generate_manim_aux sceneId llm writeOk render remaining attempt st).2).requests
        = st.requests + (m + 1) := by
  induction m with
  | zero =>
    intro remaining attempt st hlt hfail hsucc
    cases remaining with
    | zero => omega
    | succ n =>
      rw [generate_manim_aux]
      have hs : (render attempt).1 = true := by simpa using hsucc
      simp [hw attempt, hs, afterWrite, afterLLM]
  | succ m ih =>
    intro remaining attempt st hlt hfail hsucc
    cases remaining with
    | zero => omega
    | succ n =>
      rw [generate_manim_aux]
      have h0 : (render attempt).1 = false := by simpa using hfail 0 (by omega)
      simp only [hw attempt, h0, if_true, if_false, Bool.false_eq_true]
      have hshift : ∀ j, j < m → (render (attempt + 1 + j)).1 = false := by
        intro j hj
        have := hfail (j + 1) (by omega)
        have harith : attempt + (j + 1) = attempt + 1 + j := by omega
        rwa [harith] at this
      have hsucc2 : (render (attempt + 1 + m)).1 = true := by
        have harith : attempt + (m + 1) = attempt + 1 + m := by omega
        rwa [harith] at hsucc
      have := ih n (attempt + 1)
        (afterFail
          (afterWrite (afterLLM st (stripCodeFence (llm attempt)))
            (stripCodeFence (llm attempt)))
          (render attempt).2) (by omega) hshift hsucc2
      refine ⟨this.1, ?_⟩
      rw [this.2]
      simp [afterFail, afterWrite, afterLLM]
      omega

/-- If every file write succeeds and every render of the remaining
iterations fails, the loop exhausts them, returns `none` and has issued
exactly `remaining` further requests. -/
theorem generate_manim_aux_exhaust (sceneId : Nat) (llm : Nat → Chars)
    (writeOk : Nat → Bool) (render : Nat → Bool × Chars)
    (hw : ∀ i, writeOk i = true) (remaining : Nat) :
    ∀ (attempt : Nat) (st : GenState),
      (∀ j, j < remaining → (render (attempt + j)).1 = false) →
      (generate_manim_aux sceneId llm writeOk render remaining attempt st).1 = none ∧
      ((generate_manim_aux sceneId llm writeOk render remaining attempt st).2).requests
        = st.requests + remaining := by
  induction remaining with
  | zero => intro attempt st _; simp [generate_manim_aux]
  | succ n ih =>
    intro attempt st hfail
    rw [generate_manim_aux]
    have h0 : (render attempt).1 = false := by simpa using hfail 0 (by omega)
    simp only [hw attempt, h0, if_true, if_false, Bool.false_eq_true]
    have hshift : ∀ j, j < n → (render (attempt + 1 + j)).1 = false := by
      intro j hj
      have := hfail (j + 1) (by omega)
      have harith : attempt + (j + 1) = attempt + 1 + j := by omega
      rwa [harith] at this
    have := ih (attempt + 1)
      (afterFail
        (afterWrite (afterLLM st (stripCodeFence (llm attempt)))
          (stripCodeFence (llm attempt)))
        (render attempt).2) hshift
    refine ⟨this.1, ?_⟩
    rw [this.2]
    simp [afterFail, afterWrite, afterLLM]
    omega

/-- The assembler loop appends the existing scenes to the clip accumulator
and the missing scenes to the error accumulator, in order. -/
theorem collectClipsAux_spec (fileExists : Nat → Bool) :
    ∀ (order clips missing : List Nat),
      collectClipsAux fileExists clips missing order
        = (clips ++ order.filter fileExists,
           missing ++ order.filter (fun s => !fileExists s)) := by
  intro order
  induction order with
  | nil => intro clips missing; simp [collectClipsAux]
  | cons s rest ih =>
    intro clips missing
    by_cases h : fileExists s
    · simp [collectClipsAux, h, ih, List.filter_cons]
    · simp [collectClipsAux, h, ih, List.filter_cons]

/-- Dropping while a predicate holds skips a prefix on which it holds
everywhere. -/
theorem dropWhile_append_of_all {α : Type} (p : α → Bool) (l₁ l₂ : List α)
    (h : ∀ a ∈ l₁, p a = true) :
    (l₁ ++ l₂).dropWhile p = l₂.dropWhile p := by
  induction l₁ with
  | nil => rfl
  | cons a l ih =>
    simp only [List.cons_append, List.dropWhile_cons, h a (List.mem_cons_self a l), if_true]
    exact ih fun x hx => h x (List.mem_cons_of_mem _ hx)

/-- A character other than the backtick is not a tick. -/
theorem isTick_eq_false {c : Char} (h : c ≠ backtick) : isTick c = false := by
  simp [isTick, h]

/-- Stripping ticks from a body sandwiched between all-tick fringes leaves
exactly the body, provided the body itself is fixed by the two
tick-dropping passes. -/
theorem stripCodeFence_sandwich (pre post body : Chars)
    (hpre : ∀ c ∈ pre, isTick c = true) (hpost : ∀ c ∈ post, isTick c = true)
    (h1 : body.dropWhile isTick = body)
    (h2 : body.reverse.dropWhile isTick = body.reverse) :
    stripCodeFence (pre ++ body ++ post) = body := by
  unfold stripCodeFence
  rw [List.append_assoc, dropWhile_append_of_all _ pre _ hpre]
  cases body with
  | nil =>
    simp only [List.nil_append]
    have hp0 : post.dropWhile isTick = [] :=
      List.dropWhile_eq_nil_iff.mpr fun c hc => hpost c hc
    rw [hp0]
    rfl
  | cons b bs =>
    have hb : isTick b = false := by
      have := List.dropWhile_eq_self_iff.mp h1 (by simp)
      simpa using this
    rw [List.cons_append, List.dropWhile_cons, hb]
    simp only [Bool.false_eq_true, if_false]
    rw [← List.cons_append, List.reverse_append,
      dropWhile_append_of_all _ post.reverse _ fun c hc =>
        hpost c (List.mem_reverse.mp hc),
      h2, List.reverse_reverse]

/-- If every scene's two tasks completed without raising and no
reconciliation raises, the nested gather yields the results in order and
the reconciliation loop completes. -/
theorem generate_all_scenes_aux_ok (combineFails : Nat → Option String) :
    ∀ scenes : List SceneTasks,
      (∀ s ∈ scenes, s.manim.isOk = true ∧ s.speech.isOk = true ∧
        combineFails s.sceneId = none) →
      ∃ results,
        gatherList (scenes.map fun s => gatherPair s.manim s.speech) = .ok results ∧
        processScenes combineFails (results.zip (scenes.map (·.sceneId))) = .ok () := by
  intro scenes
  induction scenes with
  | nil => intro _; exact ⟨[], rfl, rfl⟩
  | cons s rest ih =>
    intro h
    obtain ⟨hm, hsp, hcf⟩ := h s (List.mem_cons_self s rest)
    obtain ⟨results, hg, hp⟩ := ih fun x hx => h x (List.mem_cons_of_mem _ hx)
    cases hman : s.manim with
    | raised m => rw [hman] at hm; simp [Outcome.isOk] at hm
    | ok a =>
      cases hspe : s.speech with
      | raised m => rw [hspe] at hsp; simp [Outcome.isOk] at hsp
      | ok b =>
        refine ⟨(a, b) :: results, ?_, ?_⟩
        · rw [List.map_cons]
          have hpair : gatherPair s.manim s.speech = Outcome.ok (a, b) := by
            rw [hman, hspe]; rfl
          rw [hpair]
          simp only [gatherList, hg]
        · simp only [List.map_cons, List.zip_cons_cons, processScenes]
          cases a with
          | none => exact hp
          | some v => rw [hcf]; exact hp

/-! Claim theorems. -/

/-- Claim C1: for every scene, `generate_manim` issues at most
`MAX_ITERATIONS` (5) language-model requests; if the rendering adapter
first reports success on attempt `k ≤ MAX_ITERATIONS` (with the local file
writes succeeding), exactly `k` requests are issued and the loop returns
the scene id; if all `MAX_ITERATIONS` attempts fail to render, the loop
returns `none` without raising (the embedding is a total function, so no
exception path exists). -/
theorem generate_manim_request_bound (sceneId : Nat) (llm : Nat → Chars)
    (writeOk : Nat → Bool) (render : Nat → Bool × Chars) (transcription : Chars)
    (k : Nat) :
    ((generate_manim sceneId llm writeOk render transcription).2).requests
        ≤ MAX_ITERATIONS
    ∧ ((∀ i, writeOk i = true) → 1 ≤ k → k ≤ MAX_ITERATIONS →
        (render (k - 1)).1 = true → (∀ j, j + 1 < k → (render j).1 = false) →
        (generate_manim sceneId llm writeOk render transcription).1 = some sceneId ∧
        ((generate_manim sceneId llm writeOk render transcription).2).requests = k)
    ∧ ((∀ i, writeOk i = true) → (∀ j, j < MAX_ITERATIONS → (render j).1 = false) →
        (generate_manim sceneId llm writeOk render transcription).1 = none ∧
        ((generate_manim sceneId llm writeOk render transcription).2).requests
          = MAX_ITERATIONS) := by
  refine ⟨?_, ?_, ?_⟩
  · have := generate_manim_aux_requests_le sceneId llm writeOk render MAX_ITERATIONS 0
      ⟨initMessages transcription, 0, []⟩
    simpa [generate_manim] using this
  · intro hw h1 h5 hsucc hfail
    have := generate_manim_aux_success sceneId llm writeOk render hw (k - 1)
      MAX_ITERATIONS 0 ⟨initMessages transcription, 0, []⟩
      (by unfold MAX_ITERATIONS at h5 ⊢; omega)
      (by intro j hj; simpa using hfail j (by omega))
      (by simpa using hsucc)
    refine ⟨this.1, ?_⟩
    unfold generate_manim at this ⊢
    rw [this.2]
    show 0 + (k - 1 + 1) = k
    omega
  · intro hw hfail
    have := generate_manim_aux_exhaust sceneId llm writeOk render hw MAX_ITERATIONS 0
      ⟨initMessages transcription, 0, []⟩ (by intro j hj; simpa using hfail j hj)
    refine ⟨this.1, ?_⟩
    unfold generate_manim at this ⊢
    rw [this.2]
    show 0 + MAX_ITERATIONS = MAX_ITERATIONS
    omega

/-- Witness for claim C1: with every write succeeding and the render first
succeeding on attempt 3 (1-based), `generate_manim` returns the scene id
after exactly 3 requests. -/
theorem generate_manim_request_bound_witness :
    (1 : Nat) ≤ 3 ∧ (3 : Nat) ≤ MAX_ITERATIONS ∧
    ((generate_manim 0 (fun _ => "code".data) (fun _ => true)
        (fun i => (decide (i = 2), "err".data)) "t".data).1 = some 0 ∧
      ((generate_manim 0 (fun _ => "code".data) (fun _ => true)
        (fun i => (decide (i = 2), "err".data)) "t".data).2).requests = 3) := by
  refine ⟨by omega, by decide, ?_⟩
  exact (generate_manim_request_bound 0 (fun _ => "code".data) (fun _ => true)
      (fun i => (decide (i = 2), "err".data)) "t".data 3).2.1
    (fun _ => rfl) (by omega) (by decide) (by decide)
    (by intro j hj
        have hcases : j = 0 ∨ j = 1 := by omega
        rcases hcases with h | h <;> subst h <;> decide)

/-- Claim C9: if the speech-synthesis call raises, `generate_speech` has
performed no filesystem effects — no directory creation and no audio file
write — because synthesis completes before any directory creation or file
write; the exception propagates as the result. -/
theorem generate_speech_no_effects_on_failure (sceneId : Nat) (msg : String)
    (dirExists : Bool) :
    (generate_speech sceneId (Outcome.raised msg) dirExists).events = []
    ∧ (generate_speech sceneId (Outcome.raised msg) dirExists).result
        = Outcome.raised msg := by
  exact ⟨rfl, rfl⟩

/-- The clip list of the assembler equals the supplied scene order
restricted to the scenes whose file exists. -/
theorem combine_video_scenes_clips_spec (videoId : String) (order : List Nat)
    (fileExists : Nat → Bool) :
    (combine_video_scenes videoId order fileExists).clips = order.filter fileExists := by
  unfold combine_video_scenes
  rw [collectClipsAux_spec]
  simp only [List.nil_append]
  split <;> rfl

/-- The missing list of the assembler equals the supplied scene order
restricted to the scenes whose file is absent. -/
theorem combine_video_scenes_missing_spec (videoId : String) (order : List Nat)
    (fileExists : Nat → Bool) :
    (combine_video_scenes videoId order fileExists).missing
      = order.filter (fun x => !fileExists x) := by
  unfold combine_video_scenes
  rw [collectClipsAux_spec]
  simp only [List.nil_append]
  split <;> rfl

/-- Claim C5: the final video concatenates the successful scenes' clips in
exactly the order the input transcriptions were supplied to the
constructor: `combine_video_scenes` reads only the insertion-ordered key
list and the filesystem, so for any set of surviving files the clip order
is the input order restricted to the scenes whose file exists — no
completion order of the concurrent tasks enters. -/
theorem combine_video_scenes_order (videoId : String) (order : List Nat)
    (fileExists : Nat → Bool) :
    (combine_video_scenes videoId order fileExists).clips = order.filter fileExists :=
  combine_video_scenes_clips_spec videoId order fileExists

/-- Claim C6: if no scene has a muxed clip file on the filesystem at
assembly time, `combine_video_scenes` returns `none` and writes no final
video file. -/
theorem combine_video_scenes_empty (videoId : String) (order : List Nat)
    (fileExists : Nat → Bool) (h : ∀ s ∈ order, fileExists s = false) :
    (combine_video_scenes videoId order fileExists).finalPath = none
    ∧ (combine_video_scenes videoId order fileExists).wroteFinal = false
    ∧ (combine_video_scenes videoId order fileExists).clips = [] := by
  have hfilter : order.filter fileExists = [] :=
    List.filter_eq_nil_iff.mpr fun s hs => by simp [h s hs]
  unfold combine_video_scenes
  rw [collectClipsAux_spec]
  simp [hfilter]

/-- Witness for claim C6: with two scenes and no file present, assembly
returns `none`, writes nothing and loads no clip. -/
theorem combine_video_scenes_empty_witness :
    (combine_video_scenes "v" [0, 1] (fun _ => false)).finalPath = none
    ∧ (combine_video_scenes "v" [0, 1] (fun _ => false)).wroteFinal = false
    ∧ (combine_video_scenes "v" [0, 1] (fun _ => false)).clips = [] :=
  combine_video_scenes_empty "v" [0, 1] (fun _ => false) (by decide)

/-- Claim C7: a scene whose muxed file is missing at assembly time is
logged as an error and omitted from the concatenation, while every scene
whose file exists is still assembled — assembly is not aborted. -/
theorem combine_video_scenes_missing_scene (videoId : String) (order : List Nat)
    (fileExists : Nat → Bool) (s : Nat) (hs : s ∈ order)
    (hmiss : fileExists s = false) :
    s ∈ (combine_video_scenes videoId order fileExists).missing
    ∧ s ∉ (combine_video_scenes videoId order fileExists).clips
    ∧ ∀ s2 ∈ order, fileExists s2 = true →
        s2 ∈ (combine_video_scenes videoId order fileExists).clips := by
  refine ⟨?_, ?_, ?_⟩
  · rw [combine_video_scenes_missing_spec]
    exact List.mem_filter.mpr ⟨hs, by simp [hmiss]⟩
  · rw [combine_video_scenes_clips_spec]
    intro hmem
    have := (List.mem_filter.mp hmem).2
    rw [hmiss] at this
    exact Bool.false_ne_true this
  · intro s2 hs2 hex
    rw [combine_video_scenes_clips_spec]
    exact List.mem_filter.mpr ⟨hs2, hex⟩

/-- Witness for claim C7: scene 0's file is missing while scene 1's exists;
scene 0 is logged and omitted, scene 1 is still assembled. -/
theorem combine_video_scenes_missing_scene_witness :
    0 ∈ (combine_video_scenes "v" [0, 1] (fun s => decide (s = 1))).missing
    ∧ 0 ∉ (combine_video_scenes "v" [0, 1] (fun s => decide (s = 1))).clips
    ∧ 1 ∈ (combine_video_scenes "v" [0, 1] (fun s => decide (s = 1))).clips := by
  have h := combine_video_scenes_missing_scene "v" [0, 1] (fun s => decide (s = 1)) 0
    (by decide) (by decide)
  exact ⟨h.1, h.2.1, h.2.2 1 (by decide) (by decide)⟩

/-- Claim C2: for positive video and audio durations,
`combine_manim_and_speech` equalises the two tracks: when audio is shorter
it becomes exactly the video's duration by appended silence; when audio is
longer the video is extended to the audio's duration; when equal both pass
through; `final_duration` is the `min` of the two adjusted durations, and
the muxed clip's video and audio tracks have equal duration. -/
theorem combine_manim_and_speech_equalises (videoDuration audioDuration : ℚ)
    (writeOk : Bool) (hv : 0 < videoDuration) (ha : 0 < audioDuration) :
    (audioDuration < videoDuration →
      (combine_manim_and_speech videoDuration audioDuration writeOk).adjAudioDuration
          = videoDuration ∧
      (combine_manim_and_speech videoDuration audioDuration writeOk).adjVideoDuration
          = videoDuration)
    ∧ (videoDuration < audioDuration →
      (combine_manim_and_speech videoDuration audioDuration writeOk).adjVideoDuration
          = audioDuration ∧
      (combine_manim_and_speech videoDuration audioDuration writeOk).adjAudioDuration
          = audioDuration)
    ∧ (audioDuration = videoDuration →
      (combine_manim_and_speech videoDuration audioDuration writeOk).adjVideoDuration
          = videoDuration ∧
      (combine_manim_and_speech videoDuration audioDuration writeOk).adjAudioDuration
          = audioDuration)
    ∧ (combine_manim_and_speech videoDuration audioDuration writeOk).finalDuration
        = min (combine_manim_and_speech videoDuration audioDuration writeOk).adjVideoDuration
            (combine_manim_and_speech videoDuration audioDuration writeOk).adjAudioDuration
    ∧ (combine_manim_and_speech videoDuration audioDuration writeOk).muxedVideoDuration
        = (combine_manim_and_speech videoDuration audioDuration writeOk).muxedAudioDuration := by
  have hsum : audioDuration + (videoDuration - audioDuration) = videoDuration := by ring
  refine ⟨?_, ?_, ?_, ?_, ?_⟩
  · intro hlt
    constructor
    · simp only [combine_manim_and_speech, if_pos hlt]
      rw [hsum]
      exact max_eq_right hlt.le
    · simp only [combine_manim_and_speech, if_pos hlt]
  · intro hlt
    have hnot : ¬ audioDuration < videoDuration := not_lt.mpr hlt.le
    constructor
    · simp only [combine_manim_and_speech, if_neg hnot, if_pos hlt]
    · simp only [combine_manim_and_speech, if_neg hnot]
  · intro heq
    have hnot : ¬ audioDuration < videoDuration := by rw [heq]; exact lt_irrefl _
    have hnot2 : ¬ videoDuration < audioDuration := by rw [heq]; exact lt_irrefl _
    constructor
    · simp only [combine_manim_and_speech, if_neg hnot, if_neg hnot2]
    · simp only [combine_manim_and_speech, if_neg hnot]
  · simp only [combine_manim_and_speech]
  · simp only [combine_manim_and_speech]

/-- Witness for claim C2, at the spec's own examples: video 10s with audio
7s yields both adjusted tracks at 10s; video 5s with audio 8s yields both
at 8s; and the muxed tracks agree. -/
theorem combine_manim_and_speech_equalises_witness :
    ((7 : ℚ) < 10 →
      (combine_manim_and_speech 10 7 true).adjAudioDuration = 10 ∧
      (combine_manim_and_speech 10 7 true).adjVideoDuration = 10)
    ∧ ((5 : ℚ) < 8 →
      (combine_manim_and_speech 5 8 true).adjVideoDuration = 8 ∧
      (combine_manim_and_speech 5 8 true).adjAudioDuration = 8)
    ∧ (combine_manim_and_speech 10 7 true).muxedVideoDuration
        = (combine_manim_and_speech 10 7 true).muxedAudioDuration := by
  refine ⟨?_, ?_, ?_⟩
  · intro h
    exact (combine_manim_and_speech_equalises 10 7 true (by norm_num) (by norm_num)).1 h
  · intro h
    exact (combine_manim_and_speech_equalises 5 8 true (by norm_num) (by norm_num)).2.1 h
  · exact (combine_manim_and_speech_equalises 10 7 true (by norm_num)
      (by norm_num)).2.2.2.2

/-- Claim C10: in the audio-longer-than-video branch the held last frame is
sampled at `videoDuration - 0.1` seconds, and that sample time lies within
the video's valid range exactly when `videoDuration ≥ 0.1` — any rendered
clip shorter than 0.1 seconds makes the lookup out of range. -/
theorem combine_manim_and_speech_frame_sample (videoDuration audioDuration : ℚ)
    (writeOk : Bool) (hv : 0 < videoDuration) (hva : videoDuration < audioDuration) :
    CombineEvent.sampleFrame (videoDuration - 1/10) ∈
      (combine_manim_and_speech videoDuration audioDuration writeOk).events
    ∧ (frameInRange (videoDuration - 1/10) videoDuration ↔ 1/10 ≤ videoDuration) := by
  constructor
  · have hnot : ¬ audioDuration < videoDuration := not_lt.mpr hva.le
    simp only [combine_manim_and_speech, if_neg hnot, if_pos hva]
    simp
  · unfold frameInRange
    constructor
    · intro h
      linarith [h.1]
    · intro h
      constructor <;> linarith

/-- Witness for claim C10: a rendered clip of 1/20 s (< 0.1 s) with 1 s of
audio samples the frame at the negative time 1/20 - 1/10, which is out of
range. -/
theorem combine_manim_and_speech_frame_sample_witness :
    (0 : ℚ) < 1/20 ∧ (1/20 : ℚ) < 1 ∧
    (CombineEvent.sampleFrame ((1:ℚ)/20 - 1/10) ∈
      (combine_manim_and_speech (1/20) 1 true).events
    ∧ (frameInRange ((1:ℚ)/20 - 1/10) (1/20) ↔ (1:ℚ)/10 ≤ 1/20)) := by
  refine ⟨by norm_num, by norm_num, ?_⟩
  exact combine_manim_and_speech_frame_sample (1/20) 1 true (by norm_num) (by norm_num)

/-- Counterexample for claim C4: with a 2 s clip and 3 s of audio, when
`write_videofile` raises, `combine_manim_and_speech` propagates the
exception and none of the three `close()` calls runs — the clip resources
are not released on the failing path, contrary to the claim that they are
released on every execution path. -/
theorem combine_manim_and_speech_leak_counterexample :
    (combine_manim_and_speech 2 3 false).raised = true
    ∧ CombineEvent.closeVideo ∉ (combine_manim_and_speech 2 3 false).events
    ∧ CombineEvent.closeAudio ∉ (combine_manim_and_speech 2 3 false).events
    ∧ CombineEvent.closeFinal ∉ (combine_manim_and_speech 2 3 false).events := by
  refine ⟨rfl, ?_, ?_, ?_⟩ <;> decide

/-- Claim C4 as amended: the video, audio and muxed clips are closed
exactly on the successful path — when the muxed write succeeds all three
`close()` calls run, but when `write_videofile` raises the exception
propagates before any `close()`, so none of the clips is released. -/
theorem combine_manim_and_speech_close_on_success (videoDuration audioDuration : ℚ) :
    ((combine_manim_and_speech videoDuration audioDuration true).raised = false
      ∧ CombineEvent.closeVideo ∈
          (combine_manim_and_speech videoDuration audioDuration true).events
      ∧ CombineEvent.closeAudio ∈
          (combine_manim_and_speech videoDuration audioDuration true).events
      ∧ CombineEvent.closeFinal ∈
          (combine_manim_and_speech videoDuration audioDuration true).events)
    ∧ ((combine_manim_and_speech videoDuration audioDuration false).raised = true
      ∧ CombineEvent.closeVideo ∉
          (combine_manim_and_speech videoDuration audioDuration false).events
      ∧ CombineEvent.closeAudio ∉
          (combine_manim_and_speech videoDuration audioDuration false).events
      ∧ CombineEvent.closeFinal ∉
          (combine_manim_and_speech videoDuration audioDuration false).events) := by
  constructor
  · refine ⟨rfl, ?_, ?_, ?_⟩ <;>
      · simp only [combine_manim_and_speech]
        split <;> simp
  · refine ⟨rfl, ?_, ?_, ?_⟩ <;>
      · simp only [combine_manim_and_speech]
        split <;> simp

/-- Counterexample for claim C8: for the model response fenced as
three-ticks `python` newline `x = 1` newline three-ticks, the stored text
produced by the code's `output.strip` of three backticks is
`python` newline `x = 1` newline — it still begins with the opening
fence's language tag `python`, and differs from the fence-free program
text (with or without the newline that followed the opening fence line),
so the stored code is not the response with the surrounding code-fence
markup stripped. -/
theorem strip_retains_language_tag_counterexample :
    stripCodeFence ("```python\nx = 1\n```".data) = "python\nx = 1\n".data
    ∧ stripCodeFence ("```python\nx = 1\n```".data) ≠ "x = 1\n".data
    ∧ stripCodeFence ("```python\nx = 1\n```".data) ≠ "\nx = 1\n".data := by
  refine ⟨by decide, by decide, by decide⟩

/-- Claim C8 as amended: on each attempt the text appended to the
conversation history as the assistant message and persisted to the scene's
`video.py` equals the model's returned program text with every leading and
trailing backtick character removed; a plain three-backtick fence is thus
removed entirely, but a language tag such as `python` after the opening
fence survives (only backtick characters are stripped). -/
theorem generate_manim_strip_behavior (code transcription : Chars) (sceneId : Nat)
    (llm : Nat → Chars) (writeOk : Nat → Bool) (render : Nat → Bool × Chars)
    (hnb : ∀ c ∈ code, c ≠ backtick)
    (hw0 : writeOk 0 = true) (hr0 : (render 0).1 = true) :
    stripCodeFence ("```".data ++ code ++ "```".data) = code
    ∧ stripCodeFence ("```python\n".data ++ code ++ "\n```".data)
        = ("python\n".data ++ code) ++ "\n".data
    ∧ (generate_manim sceneId llm writeOk render transcription).2.messages
        = initMessages transcription ++ [⟨"assistant", stripCodeFence (llm 0)⟩]
    ∧ (generate_manim sceneId llm writeOk render transcription).2.fileWrites
        = [stripCodeFence (llm 0)] := by
  have hticks : ∀ c ∈ ("```".data : Chars), isTick c = true := by decide
  refine ⟨?_, ?_, ?_, ?_⟩
  · apply stripCodeFence_sandwich _ _ _ hticks hticks
    · refine List.dropWhile_eq_self_iff.mpr fun hl => ?_
      have hmem : code[0] ∈ code := List.getElem_mem hl
      simp [isTick_eq_false (hnb _ hmem)]
    · refine List.dropWhile_eq_self_iff.mpr fun hl => ?_
      have hlen : 0 < code.length := by simpa using hl
      have hmem : code[code.length - 1] ∈ code := List.getElem_mem (by omega)
      simp [isTick_eq_false (hnb _ hmem)]
  · have harg : ("```python\n".data ++ code ++ "\n```".data : Chars)
        = ("```".data ++ (("python\n".data ++ code) ++ "\n".data)) ++ "```".data := by
      rw [show ("```python\n".data : Chars) = "```".data ++ "python\n".data from rfl,
        show ("\n```".data : Chars) = "\n".data ++ "```".data from rfl]
      simp [List.append_assoc]
    rw [harg]
    apply stripCodeFence_sandwich _ _ _ hticks hticks
    · have hcons : (("python\n".data ++ code) ++ "\n".data : Chars)
          = 'p' :: (("ython\n".data ++ code) ++ "\n".data) := rfl
      rw [hcons, List.dropWhile_cons, show isTick 'p' = false from by decide]
      simp
    · have hrev : ((("python\n".data ++ code) ++ "\n".data : Chars)).reverse
          = '\n' :: ("python\n".data ++ code).reverse := by
        rw [List.reverse_append]
        rfl
      rw [hrev, List.dropWhile_cons, show isTick '\n' = false from by decide]
      simp
  · have h5 : MAX_ITERATIONS = 4 + 1 := rfl
    rw [generate_manim, h5, generate_manim_aux]
    simp [hw0, hr0, afterWrite, afterLLM]
  · have h5 : MAX_ITERATIONS = 4 + 1 := rfl
    rw [generate_manim, h5, generate_manim_aux]
    simp [hw0, hr0, afterWrite, afterLLM]

/-- Witness for claim C8 (amended): at the concrete response fenced with a
`python` tag, the stored file content is the response with only the edge
backticks removed, and a plain fence around `x = 1` strips cleanly. -/
theorem generate_manim_strip_behavior_witness :
    stripCodeFence ("```".data ++ "x = 1\n".data ++ "```".data) = "x = 1\n".data
    ∧ stripCodeFence ("```python\n".data ++ "x = 1\n".data ++ "\n```".data)
        = ("python\n".data ++ "x = 1\n".data) ++ "\n".data
    ∧ (generate_manim 0 (fun _ => "```python\nx = 1\n```".data) (fun _ => true)
        (fun _ => (true, [])) "t".data).2.fileWrites
        = [stripCodeFence ("```python\nx = 1\n```".data)] := by
  have h := generate_manim_strip_behavior "x = 1\n".data "t".data 0
    (fun _ => "```python\nx = 1\n```".data) (fun _ => true) (fun _ => (true, []))
    (by decide) rfl rfl
  exact ⟨h.1, h.2.1, h.2.2.2⟩

/-- Counterexample for claim C3: a run of two scenes in which scene 1's
speech-synthesis task raises.  The nested `asyncio.gather` has no
`return_exceptions=True`, so the exception propagates out of the await in
`generate_all_scenes`: the reconciliation of scene 0 and the final
assembly never run and the caller receives the propagated exception, not
the video id — contradicting the claim that a speech-synthesis failure
never aborts the other scenes' processing and that the caller always
receives the video id. -/
theorem generate_all_scenes_abort_counterexample :
    generate_all_scenes 7
      [⟨0, Outcome.ok (some 0), Outcome.ok 0⟩,
       ⟨1, Outcome.ok (some 1), Outcome.raised "speech synthesis failed"⟩]
      (fun _ => none)
      = Outcome.raised "speech synthesis failed"
    ∧ Outcome.raised "speech synthesis failed" ≠ (Outcome.ok 7 : Outcome Nat) := by
  exact ⟨rfl, by decide⟩

/-- Claim C3 as amended: per-scene failures that are surfaced as `None`
sentinels — in particular exhaustion of the generation loop or a local
file-write failure inside `generate_manim` — never abort the processing of
the other scenes, and the caller receives the video id; but an exception
raised inside a per-scene task (in particular a speech-synthesis service
failure) propagates through `asyncio.gather` and aborts the run, so the
video id is returned only when no per-scene task and no reconciliation
raises. -/
theorem generate_all_scenes_sentinel_isolation (videoId : Nat)
    (scenes : List SceneTasks) (combineFails : Nat → Option String)
    (h : ∀ s ∈ scenes, s.manim.isOk = true ∧ s.speech.isOk = true ∧
      combineFails s.sceneId = none) :
    generate_all_scenes videoId scenes combineFails = Outcome.ok videoId := by
  obtain ⟨results, hg, hp⟩ := generate_all_scenes_aux_ok combineFails scenes h
  unfold generate_all_scenes
  rw [hg]
  simp only [hp]

/-- Witness for claim C3 (amended): a run where scene 0's generation loop
exhausted its retries (its task completed with the `None` sentinel) and
scene 1 succeeded still returns the video id. -/
theorem generate_all_scenes_sentinel_isolation_witness :
    generate_all_scenes 5
      [⟨0, Outcome.ok none, Outcome.ok 0⟩,
       ⟨1, Outcome.ok (some 1), Outcome.ok 1⟩]
      (fun _ => none)
      = Outcome.ok 5 :=
  generate_all_scenes_sentinel_isolation 5
    [⟨0, Outcome.ok none, Outcome.ok 0⟩,
     ⟨1, Outcome.ok (some 1), Outcome.ok 1⟩]
    (fun _ => none) (by decide)

end SceneGen
